import Mathlib

/-!
Verification development for the calendar repository fragment:
the notes CRUD routers (`app/routers/notes/notes.py`) and the
user-exercise record manager (`app/routers/user_exercise.py`).

Machinery external to the embedded code (the ORM session, the raised
exceptions, the current-user resolver) is made explicit: a session is a
record of rows plus a flag for a failing storage query, time is an
explicit `Nat` parameter standing for `datetime.now()`, and fallible
Python code returns `Except`.
-/

namespace Calendar

/-- A user entity; only the `id` field is consulted by the embedded code. -/
structure User where
  id : Nat
  deriving Repr, DecidableEq

/-- A row of the `UserExercise` table (`app/database/models.py`):
`id` generated on insert, `user_id`, and `start_date`. -/
structure UserExercise where
  id : Nat
  user_id : Nat
  start_date : Nat
  deriving Repr, DecidableEq

/-- The storage session as seen by the user-exercise module: the rows of
the `UserExercise` table in insertion order, the next storage-generated
id, and whether `session.query(...)` raises `SQLAlchemyError`. -/
structure ExSession where
  records : List UserExercise
  nextId : Nat
  queryFails : Bool
  deriving Repr, DecidableEq

/-- Faults that the user-exercise module can raise: a storage error
escaping a query, or a Python `AttributeError` from dereferencing the
`None` returned by `.first()`. -/
inductive ExFault where
  | queryError : ExFault
  | noneDereference : ExFault
  deriving Repr, DecidableEq

/-- The query `session.query(UserExercise).filter_by(user_id=uid)`: raises when the
storage query fails, otherwise the rows whose `user_id` matches. -/
def queryFilterByUserId (session : ExSession) (uid : Nat) :
    Except ExFault (List UserExercise) :=
  if session.queryFails then .error .queryError
  else .ok (session.records.filter (fun r => r.user_id == uid))

/-- Embeds `get_user_exercise` (src/app/routers/user_exercise.py, lines 31-38):
runs the filtered query, catching `SQLAlchemyError` and returning the
empty list in that case. -/
def get_user_exercise (session : ExSession) (uid : Nat) : List UserExercise :=
  match queryFilterByUserId session uid with
  | .error _ => []
  | .ok l => l

/-- Embeds `does_user_exercise_exist` (lines 23-27): Python truthiness of the
list returned by `get_user_exercise`. -/
def does_user_exercise_exist (session : ExSession) (uid : Nat) : Bool :=
  !(get_user_exercise session uid).isEmpty

/-- Replace the first element satisfying `p` with `f` applied to it,
modelling in-place mutation of the row object handed back by `.first()`
followed by `session.commit()`. -/
def updateFirst (p : α → Bool) (f : α → α) : List α → List α
  | [] => []
  | x :: xs => if p x then f x :: xs else x :: updateFirst p f xs

/-- Embeds `update_user_exercise` (lines 41-46): looks up the first row with the
user's id, sets its `start_date` to now (`t`) and commits; dereferencing
the absent row (`.first()` returned `None`) is a `noneDereference` fault,
and a raised query error propagates. -/
def update_user_exercise (t : Nat) (session : ExSession) (user : User) :
    Except ExFault (UserExercise × ExSession) :=
  match queryFilterByUserId session user.id with
  | .error e => .error e
  | .ok rows =>
    match rows.head? with
    | none => .error .noneDereference
    | some r =>
      let r' : UserExercise := { r with start_date := t }
      let committed : List UserExercise :=
        updateFirst (fun x => x.user_id == user.id)
          (fun x => { x with start_date := t }) session.records
      .ok (r', { session with records := committed })

/-- Modelled from the spec: `save` (`app/internal/utils.py`, absent from
src/) persists a new row via a single-row transactional insert with a
storage-generated id. -/
def save (r : UserExercise) (session : ExSession) : UserExercise × ExSession :=
  let r' : UserExercise := { r with id := session.nextId }
  let s' : ExSession :=
    { session with records := session.records ++ [r'], nextId := session.nextId + 1 }
  (r', s')

/-- Embeds `create_user_exercise` (lines 8-20): if no exercise exists for the
user's id, build a row with `start_date = now` and save it; otherwise
delegate to `update_user_exercise`. Returns the created or updated row. -/
def create_user_exercise (t : Nat) (session : ExSession) (user : User) :
    Except ExFault (UserExercise × ExSession) :=
  if !(does_user_exercise_exist session user.id) then
    let ue : UserExercise := { id := 0, user_id := user.id, start_date := t }
    let (r, s') := save ue session
    .ok (r, s')
  else
    update_user_exercise t session user

/-- A persisted row of the `Note` table: storage-generated `id`,
`title`, `description`, storage-set creation `timestamp`, and `creator`
(absent until the create path resolves it). -/
structure Note where
  id : Nat
  title : String
  description : String
  timestamp : Nat
  creator : Option User
  deriving Repr, DecidableEq

/-- A raw request body or submitted form mapping, before schema
validation: each field may be missing, and a client may smuggle in a
`creator` value. -/
structure RawPayload where
  title : Option String
  description : Option String
  creator : Option User
  deriving Repr, DecidableEq

/-- A validated `NoteSchema` payload: `title` and `description` present,
`creator` optional. -/
structure NoteSchema where
  title : String
  description : String
  creator : Option User
  deriving Repr, DecidableEq

/-- An error response raised to the client: HTTP status code and the
`detail` message of the `HTTPException`. -/
structure HttpError where
  status : Nat
  detail : String
  deriving Repr, DecidableEq

/-- A successful non-data response: the `RedirectResponse(location,
status_code)` returned by the form endpoints. -/
inductive UiResponse where
  | redirect (location : String) (statusCode : Nat) : UiResponse
  deriving Repr, DecidableEq

/-- Modelled from the spec: `NoteSchema` validation
(`app/database/schemas.py`, absent from src/) — the schema rejects a
payload missing `title` or `description` with a 422-class client error
before any business logic runs. -/
def NoteSchema.validate (p : RawPayload) : Except HttpError NoteSchema :=
  match p.title, p.description with
  | some t, some d => .ok { title := t, description := d, creator := p.creator }
  | _, _ => .error { status := 422, detail := "value_error.missing" }

/-- The storage session as seen by the notes handler: the rows of the
`Note` table in insertion order, the next storage-generated id, the
storage clock used for the creation timestamp, and the user the
`get_current_user` collaborator resolves for this request. -/
structure NotesSession where
  notes : List Note
  nextId : Nat
  now : Nat
  currentUser : User
  deriving Repr, DecidableEq

namespace InternalNotes

/-- Modelled from the spec: `notes.view` (`app/internal/notes/notes.py`,
absent from src/) returns the note with the given id if present. -/
def view (session : NotesSession) (note_id : Nat) : Option Note :=
  session.notes.find? (fun n => n.id == note_id)

/-- Modelled from the spec: `notes.create_note` persists a new note with
a server-assigned id and storage-set timestamp and returns the persisted
record. -/
def create_note (note : NoteSchema) (session : NotesSession) :
    Note × NotesSession :=
  let n : Note := { id := session.nextId, title := note.title,
                    description := note.description,
                    timestamp := session.now, creator := note.creator }
  let s' : NotesSession :=
    { session with notes := session.notes ++ [n], nextId := session.nextId + 1 }
  (n, s')

/-- Modelled from the spec: `notes.update` — if the note does not exist,
signals not-found as a 404-class client error carrying the requested id;
otherwise overwrites title/description and commits, leaving
id/creator/timestamp untouched, and returns the updated record. -/
def update (note : NoteSchema) (session : NotesSession) (note_id : Nat) :
    Except HttpError (Note × NotesSession) :=
  match view session note_id with
  | none =>
    .error { status := 404,
             detail := "Note with id " ++ toString note_id ++ " not found" }
  | some n =>
    let n' : Note := { n with title := note.title, description := note.description }
    let committed : List Note :=
      updateFirst (fun m => m.id == note_id)
        (fun m => { m with title := note.title, description := note.description })
        session.notes
    .ok (n', { session with notes := committed })

/-- Modelled from the spec: `notes.delete` — if the note is absent,
signals not-found as a 404-class client error carrying the requested id;
otherwise removes the row and returns the deleted record's data. -/
def delete (session : NotesSession) (note_id : Nat) :
    Except HttpError (Note × NotesSession) :=
  match view session note_id with
  | none =>
    .error { status := 404,
             detail := "Note with id " ++ toString note_id ++ " not found" }
  | some n =>
    let remaining : List Note := session.notes.filter (fun m => !(m.id == note_id))
    .ok (n, { session with notes := remaining })

/-- Modelled from the spec: `notes.get_all` returns all notes in storage
in implementation-stable (insertion) order. -/
def get_all (session : NotesSession) : List Note :=
  session.notes

end InternalNotes

/-- Embeds `read_note` (src/app/routers/notes/notes.py, lines 143-154): looks
the note up; a falsy result raises `HTTPException(404, "Note with id
{note_id} not found")`, otherwise the note is returned. -/
def read_note (note_id : Nat) (session : NotesSession) :
    Except HttpError Note :=
  match InternalNotes.view session note_id with
  | none =>
    .error { status := 404,
             detail := "Note with id " ++ toString note_id ++ " not found" }
  | some n => .ok n

/-- Embeds `create_new_note` (lines 69-77): copies the parsed schema, overwrites
its `creator` with the server-resolved current user, and persists it. The
framework's body validation (`request: NoteSchema`) runs first, so the
endpoint takes the raw payload through `NoteSchema.validate`. -/
def create_new_note (p : RawPayload) (session : NotesSession) :
    Except HttpError (Note × NotesSession) :=
  match NoteSchema.validate p with
  | .error e => .error e
  | .ok request =>
    let new_note : NoteSchema := { request with creator := some session.currentUser }
    .ok (InternalNotes.create_note new_note session)

/-- Embeds `update_note` (lines 86-93): the framework validates the body into a
`NoteSchema` (422 on a partial payload), then delegates to
`notes.update`. -/
def update_note (p : RawPayload) (note_id : Nat) (session : NotesSession) :
    Except HttpError (Note × NotesSession) :=
  match NoteSchema.validate p with
  | .error e => .error e
  | .ok request => InternalNotes.update request session note_id

/-- Embeds `delete_note` (lines 80-83): delegates to `notes.delete`. -/
def delete_note (note_id : Nat) (session : NotesSession) :
    Except HttpError (Note × NotesSession) :=
  InternalNotes.delete session note_id

/-- Embeds `create_note_by_form` (lines 57-66): builds a `NoteSchema` from the
submitted form, overwrites its `creator` with the server-resolved
current user, persists it, and on success redirects to "/notes" with
status 302. -/
def create_note_by_form (form : RawPayload) (session : NotesSession) :
    Except HttpError (UiResponse × NotesSession) :=
  match NoteSchema.validate form with
  | .error e => .error e
  | .ok new_note =>
    let resolved : NoteSchema := { new_note with creator := some session.currentUser }
    let (_, s') := InternalNotes.create_note resolved session
    .ok (.redirect "/notes" 302, s')

/-- Embeds `redirect_update_note` (lines 26-35): builds a `NoteSchema` from the
form, awaits `update_note` (errors propagate), and on success redirects
to "/notes" with status 302. -/
def redirect_update_note (form : RawPayload) (note_id : Nat)
    (session : NotesSession) : Except HttpError (UiResponse × NotesSession) :=
  match NoteSchema.validate form with
  | .error e => .error e
  | .ok updated_note =>
    match InternalNotes.update updated_note session note_id with
    | .error e => .error e
    | .ok (_, s') => .ok (.redirect "/notes" 302, s')

/-- Embeds `redirect_delete_note` (lines 43-49): awaits `delete_note` (errors
propagate) and on success redirects to "/notes" with status 302. -/
def redirect_delete_note (note_id : Nat) (session : NotesSession) :
    Except HttpError (UiResponse × NotesSession) :=
  match delete_note note_id session with
  | .error e => .error e
  | .ok (_, s') => .ok (.redirect "/notes" 302, s')

/-! ## Helper lemmas -/

theorem updateFirst_append_of_no_match {α : Type} (p : α → Bool) (f : α → α)
    (l₁ l₂ : List α) (h : ∀ x ∈ l₁, p x = false) :
    updateFirst p f (l₁ ++ l₂) = l₁ ++ updateFirst p f l₂ := by
  induction l₁ with
  | nil => rfl
  | cons x xs ih =>
    have hx : p x = false := h x (by simp)
    simp [updateFirst, hx, ih (fun y hy => h y (by simp [hy]))]

theorem mem_updateFirst_of_no_match {α : Type} (p : α → Bool) (f : α → α)
    (l : List α) (m : α) (hm : m ∈ l) (hp : p m = false) :
    m ∈ updateFirst p f l := by
  induction l with
  | nil => simp at hm
  | cons x xs ih =>
    rcases List.mem_cons.mp hm with h | h
    · subst h
      simp [updateFirst, hp]
    · by_cases hx : p x = true
      · simp [updateFirst, hx, h]
      · simp only [Bool.not_eq_true] at hx
        simp only [updateFirst, hx, Bool.false_eq_true, if_false, List.mem_cons]
        exact Or.inr (ih h)

theorem get_user_exercise_eq_filter (s : ExSession) (uid : Nat)
    (hq : s.queryFails = false) :
    get_user_exercise s uid = s.records.filter (fun r => r.user_id == uid) := by
  simp [get_user_exercise, queryFilterByUserId, hq]

theorem update_user_exercise_ok_of_filter_ne_nil (t : Nat) (s : ExSession)
    (u : User) (hq : s.queryFails = false)
    (hne : s.records.filter (fun r => r.user_id == u.id) ≠ []) :
    ∃ r₀ s', r₀ ∈ s.records ∧ r₀.user_id = u.id ∧
      update_user_exercise t s u = .ok ({ r₀ with start_date := t }, s') ∧
      s'.records = updateFirst (fun x => x.user_id == u.id)
        (fun x => { x with start_date := t }) s.records ∧
      s'.nextId = s.nextId ∧ s'.queryFails = s.queryFails := by
  cases hh : (s.records.filter (fun r => r.user_id == u.id)).head? with
  | none =>
    exact absurd (List.head?_eq_none_iff.mp hh) hne
  | some r₀ =>
    have hmem : r₀ ∈ s.records.filter (fun r => r.user_id == u.id) := by
      cases hl : s.records.filter (fun r => r.user_id == u.id) with
      | nil => simp [hl] at hh
      | cons a l => simp [hl] at hh; simp [hl, hh]
    obtain ⟨hr₀, hp⟩ := List.mem_filter.mp hmem
    refine ⟨r₀, ⟨updateFirst (fun x => x.user_id == u.id)
        (fun x => { x with start_date := t }) s.records, s.nextId, s.queryFails⟩,
      hr₀, by simpa using hp, ?_, rfl, rfl, rfl⟩
    simp [update_user_exercise, queryFilterByUserId, hq, hh]

/-! ## User-exercise claims -/

/-- C4: for every user id, if the underlying storage query inside the
user-exercise existence check fails, `get_user_exercise` catches the
storage error and returns the empty list, so `does_user_exercise_exist`
reports false instead of propagating the failure (both functions are
total: the existence check never raises). -/
theorem c4_exists_check_swallows_storage_failure (s : ExSession) (uid : Nat)
    (h : s.queryFails = true) :
    get_user_exercise s uid = [] ∧ does_user_exercise_exist s uid = false := by
  constructor
  · simp [get_user_exercise, queryFilterByUserId, h]
  · simp [does_user_exercise_exist, get_user_exercise, queryFilterByUserId, h]

/-- Witness for C4 at a concrete failing session holding a matching row. -/
theorem c4_witness :
    get_user_exercise ⟨[⟨1, 5, 10⟩], 2, true⟩ 5 = [] ∧
    does_user_exercise_exist ⟨[⟨1, 5, 10⟩], 2, true⟩ 5 = false :=
  c4_exists_check_swallows_storage_failure ⟨[⟨1, 5, 10⟩], 2, true⟩ 5 (by decide)

/-- C5: under the precondition that a `UserExercise` row for the user's
id is present (and the query itself succeeds), `update_user_exercise`
succeeds and returns the updated record; invoked when no such row
exists, it fails with a none-dereference fault (`.first()` returned
`None` and its attribute is assigned) rather than a handled error. -/
theorem c5_update_user_exercise_assumes_presence (t : Nat) (s : ExSession)
    (u : User) (hq : s.queryFails = false) :
    ((∃ r ∈ s.records, r.user_id = u.id) →
      ∃ r' s', update_user_exercise t s u = .ok (r', s') ∧
        r'.user_id = u.id ∧ r'.start_date = t) ∧
    ((∀ r ∈ s.records, r.user_id ≠ u.id) →
      update_user_exercise t s u = .error .noneDereference) := by
  constructor
  · rintro ⟨r, hr, hru⟩
    have hne : s.records.filter (fun x => x.user_id == u.id) ≠ [] := by
      intro hnil
      have := List.filter_eq_nil_iff.mp hnil r hr
      simp [hru] at this
    obtain ⟨r₀, s', _, hid, heq, -, -, -⟩ :=
      update_user_exercise_ok_of_filter_ne_nil t s u hq hne
    exact ⟨{ r₀ with start_date := t }, s', heq, hid, rfl⟩
  · intro habs
    have hnil : s.records.filter (fun x => x.user_id == u.id) = [] := by
      refine List.filter_eq_nil_iff.mpr fun r hr => ?_
      simp [habs r hr]
    simp [update_user_exercise, queryFilterByUserId, hq, hnil]

/-- Witness for C5 at a concrete session: the present case on a session
holding the row, the absent case on an empty session. -/
theorem c5_witness :
    ((∃ r ∈ (⟨[⟨1, 5, 10⟩], 2, false⟩ : ExSession).records, r.user_id = 5) →
      ∃ r' s', update_user_exercise 42 ⟨[⟨1, 5, 10⟩], 2, false⟩ ⟨5⟩ = .ok (r', s') ∧
        r'.user_id = 5 ∧ r'.start_date = 42) ∧
    ((∀ r ∈ (⟨[⟨1, 5, 10⟩], 2, false⟩ : ExSession).records, r.user_id ≠ 5) →
      update_user_exercise 42 ⟨[⟨1, 5, 10⟩], 2, false⟩ ⟨5⟩ = .error .noneDereference) :=
  c5_update_user_exercise_assumes_presence 42 ⟨[⟨1, 5, 10⟩], 2, false⟩ ⟨5⟩ (by decide)

/-- C10: for every storage state and every user, `create_user_exercise`
returns a record whose `user_id` is the given user's id and whose
`start_date` is the current time of this invocation, in both the create
branch and the restart branch. -/
theorem c10_create_user_exercise_fresh_record (t : Nat) (s : ExSession)
    (u : User) :
    ∃ r s', create_user_exercise t s u = .ok (r, s') ∧
      r.user_id = u.id ∧ r.start_date = t := by
  cases hex : does_user_exercise_exist s u.id with
  | false =>
    refine ⟨⟨s.nextId, u.id, t⟩,
      ⟨s.records ++ [⟨s.nextId, u.id, t⟩], s.nextId + 1, s.queryFails⟩,
      ?_, rfl, rfl⟩
    simp [create_user_exercise, hex, save]
  | true =>
    have hq : s.queryFails = false := by
      by_contra hq
      simp only [Bool.not_eq_false] at hq
      simp [does_user_exercise_exist, get_user_exercise,
        queryFilterByUserId, hq] at hex
    have hne : s.records.filter (fun r => r.user_id == u.id) ≠ [] := by
      intro hnil
      rw [does_user_exercise_exist, get_user_exercise_eq_filter s u.id hq,
        hnil] at hex
      simp at hex
    obtain ⟨r₀, s', _, hid, heq, -, -, -⟩ :=
      update_user_exercise_ok_of_filter_ne_nil t s u hq hne
    refine ⟨{ r₀ with start_date := t }, s', ?_, hid, rfl⟩
    simp [create_user_exercise, hex, heq]

/-- C3: invoking `create_user_exercise` twice in sequence for the same
new user id (no row yet, healthy storage, strictly advancing clock)
leaves exactly one `UserExercise` row for that user id after each
invocation, and the `start_date` after the second invocation is strictly
later than after the first: the second call restarts rather than
no-ops. -/
theorem c3_ensure_started_twice_single_row_restart (t₁ t₂ : Nat)
    (s : ExSession) (u : User)
    (hnew : ∀ r ∈ s.records, r.user_id ≠ u.id)
    (hq : s.queryFails = false) (ht : t₁ < t₂) :
    ∃ r₁ s₁ r₂ s₂,
      create_user_exercise t₁ s u = .ok (r₁, s₁) ∧
      create_user_exercise t₂ s₁ u = .ok (r₂, s₂) ∧
      (s₁.records.filter (fun r => r.user_id == u.id)).length = 1 ∧
      (s₂.records.filter (fun r => r.user_id == u.id)).length = 1 ∧
      r₁.start_date = t₁ ∧ r₂.start_date = t₂ ∧
      r₁.start_date < r₂.start_date := by
  obtain ⟨recs, nid, qf⟩ := s
  obtain rfl : qf = false := hq
  have hpf : ∀ x ∈ recs, (x.user_id == u.id) = false := by
    intro x hx
    simp [hnew x hx]
  have hfilnil : recs.filter (fun r => r.user_id == u.id) = [] :=
    List.filter_eq_nil_iff.mpr (fun r hr => by simp [hnew r hr])
  have hex1 : does_user_exercise_exist ⟨recs, nid, false⟩ u.id = false := by
    simp [does_user_exercise_exist, get_user_exercise, queryFilterByUserId,
      hfilnil]
  have hfil1 : (recs ++ [(⟨nid, u.id, t₁⟩ : UserExercise)]).filter
      (fun r => r.user_id == u.id) = [⟨nid, u.id, t₁⟩] := by
    rw [List.filter_append, hfilnil]
    simp
  have hex2 : does_user_exercise_exist
      ⟨recs ++ [⟨nid, u.id, t₁⟩], nid + 1, false⟩ u.id = true := by
    simp [does_user_exercise_exist, get_user_exercise, queryFilterByUserId,
      hfil1]
  have hupd : updateFirst (fun x => x.user_id == u.id)
      (fun x => { x with start_date := t₂ }) (recs ++ [⟨nid, u.id, t₁⟩])
      = recs ++ [⟨nid, u.id, t₂⟩] := by
    rw [updateFirst_append_of_no_match _ _ _ _ hpf]
    simp [updateFirst]
  have hfil2 : (recs ++ [(⟨nid, u.id, t₂⟩ : UserExercise)]).filter
      (fun r => r.user_id == u.id) = [⟨nid, u.id, t₂⟩] := by
    rw [List.filter_append, hfilnil]
    simp
  refine ⟨⟨nid, u.id, t₁⟩, ⟨recs ++ [⟨nid, u.id, t₁⟩], nid + 1, false⟩,
    ⟨nid, u.id, t₂⟩, ⟨recs ++ [⟨nid, u.id, t₂⟩], nid + 1, false⟩,
    ?_, ?_, ?_, ?_, rfl, rfl, ht⟩
  · simp [create_user_exercise, hex1, save]
  · simp [create_user_exercise, hex2, update_user_exercise,
      queryFilterByUserId, hfil1, hupd]
  · simp [hfil1]
  · simp [hfil2]

/-- Witness for C3: an empty healthy session, user id 7, times 1 and 2. -/
theorem c3_witness :
    ∃ r₁ s₁ r₂ s₂,
      create_user_exercise 1 ⟨[], 0, false⟩ ⟨7⟩ = .ok (r₁, s₁) ∧
      create_user_exercise 2 s₁ ⟨7⟩ = .ok (r₂, s₂) ∧
      (s₁.records.filter (fun r => r.user_id == 7)).length = 1 ∧
      (s₂.records.filter (fun r => r.user_id == 7)).length = 1 ∧
      r₁.start_date = 1 ∧ r₂.start_date = 2 ∧
      r₁.start_date < r₂.start_date :=
  c3_ensure_started_twice_single_row_restart 1 2 ⟨[], 0, false⟩ ⟨7⟩
    (by intro r hr; simp at hr) (by decide) (by decide)

/-! ## Notes helper lemmas -/

theorem find?_append_of_prefix_no_match {α : Type} (p : α → Bool)
    (l₁ l₂ : List α) (h : ∀ x ∈ l₁, p x = false) :
    List.find? p (l₁ ++ l₂) = List.find? p l₂ := by
  induction l₁ with
  | nil => rfl
  | cons x xs ih =>
    have hx : p x = false := h x (by simp)
    rw [List.cons_append, List.find?_cons_of_neg _ (by simp [hx])]
    exact ih (fun y hy => h y (by simp [hy]))

theorem updateFirst_decomp_of_find? {α : Type} (p : α → Bool) (f : α → α)
    (l : List α) (n : α) (h : List.find? p l = some n) :
    ∃ l₁ l₂, l = l₁ ++ n :: l₂ ∧ (∀ x ∈ l₁, p x = false) ∧
      updateFirst p f l = l₁ ++ f n :: l₂ := by
  induction l with
  | nil => simp at h
  | cons x xs ih =>
    cases hx : p x with
    | true =>
      rw [List.find?_cons_of_pos _ hx] at h
      obtain rfl : x = n := by injection h
      exact ⟨[], xs, rfl, by simp, by simp [updateFirst, hx]⟩
    | false =>
      rw [List.find?_cons_of_neg _ (by simp [hx])] at h
      obtain ⟨l₁, l₂, hl, hpre, hup⟩ := ih h
      refine ⟨x :: l₁, l₂, by simp [hl], ?_, ?_⟩
      · intro y hy
        rcases List.mem_cons.mp hy with rfl | hy
        · exact hx
        · exact hpre y hy
      · simp [updateFirst, hx, hup]

/-! ## Notes claims -/

/-- C1: for every create request (JSON or form) with valid title and
description, the persisted note's creator equals the server-resolved
current user; two create requests differing only in a client-supplied
creator value produce records with the same creator (the client value is
ignored). -/
theorem c1_creator_server_resolved (p₁ p₂ : RawPayload) (s : NotesSession)
    (t d : String)
    (ht : p₁.title = some t) (hd : p₁.description = some d)
    (et : p₂.title = p₁.title) (ed : p₂.description = p₁.description) :
    ∃ n₁ s₁ n₂ s₂ r s₃,
      create_new_note p₁ s = .ok (n₁, s₁) ∧
      create_new_note p₂ s = .ok (n₂, s₂) ∧
      n₁.creator = some s.currentUser ∧
      n₂.creator = n₁.creator ∧
      create_note_by_form p₁ s = .ok (r, s₃) ∧
      s₃.notes = s.notes ++ [n₁] := by
  have ht₂ : p₂.title = some t := by rw [et, ht]
  have hd₂ : p₂.description = some d := by rw [ed, hd]
  refine ⟨⟨s.nextId, t, d, s.now, some s.currentUser⟩,
    ⟨s.notes ++ [⟨s.nextId, t, d, s.now, some s.currentUser⟩],
      s.nextId + 1, s.now, s.currentUser⟩,
    ⟨s.nextId, t, d, s.now, some s.currentUser⟩,
    ⟨s.notes ++ [⟨s.nextId, t, d, s.now, some s.currentUser⟩],
      s.nextId + 1, s.now, s.currentUser⟩,
    .redirect "/notes" 302,
    ⟨s.notes ++ [⟨s.nextId, t, d, s.now, some s.currentUser⟩],
      s.nextId + 1, s.now, s.currentUser⟩,
    ?_, ?_, rfl, rfl, ?_, rfl⟩
  · simp [create_new_note, NoteSchema.validate, ht, hd,
      InternalNotes.create_note]
  · simp [create_new_note, NoteSchema.validate, ht₂, hd₂,
      InternalNotes.create_note]
  · simp [create_note_by_form, NoteSchema.validate, ht, hd,
      InternalNotes.create_note]

/-- Witness for C1: two concrete payloads that differ only in their
client-supplied creator, against a session whose current user is id 3. -/
theorem c1_witness :
    ∃ n₁ s₁ n₂ s₂ r s₃,
      create_new_note ⟨some "a", some "b", none⟩ ⟨[], 1, 5, ⟨3⟩⟩ = .ok (n₁, s₁) ∧
      create_new_note ⟨some "a", some "b", some ⟨99⟩⟩ ⟨[], 1, 5, ⟨3⟩⟩ = .ok (n₂, s₂) ∧
      n₁.creator = some (⟨[], 1, 5, ⟨3⟩⟩ : NotesSession).currentUser ∧
      n₂.creator = n₁.creator ∧
      create_note_by_form ⟨some "a", some "b", none⟩ ⟨[], 1, 5, ⟨3⟩⟩ = .ok (r, s₃) ∧
      s₃.notes = (⟨[], 1, 5, ⟨3⟩⟩ : NotesSession).notes ++ [n₁] :=
  c1_creator_server_resolved ⟨some "a", some "b", none⟩
    ⟨some "a", some "b", some ⟨99⟩⟩ ⟨[], 1, 5, ⟨3⟩⟩ "a" "b" rfl rfl rfl rfl

/-- C2: for every id not present in storage, Read, Update (with a valid
payload), and Delete on the JSON API each signal not-found as a 404
client error whose detail message contains that exact id, rather than a
silent empty result. -/
theorem c2_not_found_carries_id (note_id : Nat) (s : NotesSession)
    (p : RawPayload) (t d : String)
    (habs : ∀ n ∈ s.notes, n.id ≠ note_id)
    (ht : p.title = some t) (hd : p.description = some d) :
    read_note note_id s =
      .error ⟨404, "Note with id " ++ toString note_id ++ " not found"⟩ ∧
    update_note p note_id s =
      .error ⟨404, "Note with id " ++ toString note_id ++ " not found"⟩ ∧
    delete_note note_id s =
      .error ⟨404, "Note with id " ++ toString note_id ++ " not found"⟩ := by
  have hview : InternalNotes.view s note_id = none :=
    List.find?_eq_none.mpr (fun n hn => by simp [habs n hn])
  refine ⟨?_, ?_, ?_⟩
  · simp [read_note, hview]
  · simp [update_note, NoteSchema.validate, ht, hd, InternalNotes.update,
      hview]
  · simp [delete_note, InternalNotes.delete, hview]

/-- Witness for C2: id 666 against a session holding only note 1. -/
theorem c2_witness :
    read_note 666 ⟨[⟨1, "x", "y", 0, none⟩], 2, 5, ⟨3⟩⟩ =
      .error ⟨404, "Note with id " ++ toString 666 ++ " not found"⟩ ∧
    update_note ⟨some "a", some "b", none⟩ 666
        ⟨[⟨1, "x", "y", 0, none⟩], 2, 5, ⟨3⟩⟩ =
      .error ⟨404, "Note with id " ++ toString 666 ++ " not found"⟩ ∧
    delete_note 666 ⟨[⟨1, "x", "y", 0, none⟩], 2, 5, ⟨3⟩⟩ =
      .error ⟨404, "Note with id " ++ toString 666 ++ " not found"⟩ :=
  c2_not_found_carries_id 666 ⟨[⟨1, "x", "y", 0, none⟩], 2, 5, ⟨3⟩⟩
    ⟨some "a", some "b", none⟩ "a" "b" (by decide) rfl rfl

/-- C6: for every id (existing or not), an Update request whose payload
is missing the title field or the description field is rejected as a
422-class validation error; `notes.update` never runs on a partial
payload. -/
theorem c6_update_partial_payload_rejected (p : RawPayload) (note_id : Nat)
    (s : NotesSession) (h : p.title = none ∨ p.description = none) :
    ∃ e, update_note p note_id s = .error e ∧ e.status = 422 := by
  refine ⟨⟨422, "value_error.missing"⟩, ?_, rfl⟩
  rcases h with h | h
  · simp [update_note, NoteSchema.validate, h]
  · cases hp : p.title with
    | none => simp [update_note, NoteSchema.validate, hp]
    | some a => simp [update_note, NoteSchema.validate, hp, h]

/-- Witness for C6: an empty payload against an id that does exist in
storage. -/
theorem c6_witness :
    ∃ e, update_note ⟨none, none, none⟩ 1
        ⟨[⟨1, "x", "y", 0, none⟩], 2, 5, ⟨3⟩⟩ = .error e ∧ e.status = 422 :=
  c6_update_partial_payload_rejected ⟨none, none, none⟩ 1
    ⟨[⟨1, "x", "y", 0, none⟩], 2, 5, ⟨3⟩⟩ (Or.inl rfl)

/-- C7: updating an existing note overwrites only its title and
description: the returned record keeps the note's id, creator and
timestamp, and storage after the commit is the same list with only that
one occurrence replaced (every other note, before and after it, is
untouched). -/
theorem c7_update_frame (p : RawPayload) (note_id : Nat) (s : NotesSession)
    (n : Note) (t d : String)
    (ht : p.title = some t) (hd : p.description = some d)
    (hn : InternalNotes.view s note_id = some n) :
    ∃ n' s', update_note p note_id s = .ok (n', s') ∧
      n'.id = n.id ∧ n'.creator = n.creator ∧ n'.timestamp = n.timestamp ∧
      n'.title = t ∧ n'.description = d ∧
      ∃ l₁ l₂, s.notes = l₁ ++ n :: l₂ ∧ s'.notes = l₁ ++ n' :: l₂ := by
  obtain ⟨l₁, l₂, hl, -, hup⟩ :=
    updateFirst_decomp_of_find? (fun (m : Note) => m.id == note_id)
      (fun (m : Note) => { m with title := t, description := d }) s.notes n hn
  refine ⟨{ n with title := t, description := d },
    ⟨l₁ ++ { n with title := t, description := d } :: l₂,
      s.nextId, s.now, s.currentUser⟩,
    ?_, rfl, rfl, rfl, rfl, rfl, l₁, l₂, hl, rfl⟩
  simp [update_note, NoteSchema.validate, ht, hd, InternalNotes.update, hn,
    hup]

/-- Witness for C7: updating note 1 in a two-note store keeps note 2 and
note 1's metadata intact. -/
theorem c7_witness :
    ∃ n' s', update_note ⟨some "a", some "b", none⟩ 1
        ⟨[⟨1, "x", "y", 4, some ⟨3⟩⟩, ⟨2, "p", "q", 6, none⟩], 3, 5, ⟨3⟩⟩ =
        .ok (n', s') ∧
      n'.id = 1 ∧ n'.creator = some ⟨3⟩ ∧ n'.timestamp = 4 ∧
      n'.title = "a" ∧ n'.description = "b" ∧
      ∃ l₁ l₂,
        (⟨[⟨1, "x", "y", 4, some ⟨3⟩⟩, ⟨2, "p", "q", 6, none⟩], 3, 5, ⟨3⟩⟩ :
          NotesSession).notes = l₁ ++ ⟨1, "x", "y", 4, some ⟨3⟩⟩ :: l₂ ∧
        s'.notes = l₁ ++ n' :: l₂ :=
  c7_update_frame ⟨some "a", some "b", none⟩ 1
    ⟨[⟨1, "x", "y", 4, some ⟨3⟩⟩, ⟨2, "p", "q", 6, none⟩], 3, 5, ⟨3⟩⟩
    ⟨1, "x", "y", 4, some ⟨3⟩⟩ "a" "b" rfl rfl (by decide)

/-- C8: every successful invocation of a form/UI variant (form create,
form update, form delete) responds with a redirect to "/notes" (status
302) rather than the operation's data. -/
theorem c8_form_success_redirects (s : NotesSession) (form : RawPayload)
    (note_id : Nat) (rc ru rd : UiResponse) (sc su sd : NotesSession)
    (hc : create_note_by_form form s = .ok (rc, sc))
    (hu : redirect_update_note form note_id s = .ok (ru, su))
    (hdel : redirect_delete_note note_id s = .ok (rd, sd)) :
    rc = .redirect "/notes" 302 ∧ ru = .redirect "/notes" 302 ∧
    rd = .redirect "/notes" 302 := by
  refine ⟨?_, ?_, ?_⟩
  · cases hv : NoteSchema.validate form with
    | error e => simp [create_note_by_form, hv] at hc
    | ok nn =>
      simp [create_note_by_form, hv] at hc
      exact hc.1.symm
  · cases hv : NoteSchema.validate form with
    | error e => simp [redirect_update_note, hv] at hu
    | ok nn =>
      cases hup : InternalNotes.update nn s note_id with
      | error e => simp [redirect_update_note, hv, hup] at hu
      | ok res =>
        simp [redirect_update_note, hv, hup] at hu
        exact hu.1.symm
  · cases hdl : delete_note note_id s with
    | error e => simp [redirect_delete_note, hdl] at hdel
    | ok res =>
      simp [redirect_delete_note, hdl] at hdel
      exact hdel.1.symm

/-- Witness for C8: a concrete valid form and a store containing note 1,
on which all three form endpoints succeed. -/
theorem c8_witness :
    (.redirect "/notes" 302 : UiResponse) = .redirect "/notes" 302 ∧
    (.redirect "/notes" 302 : UiResponse) = .redirect "/notes" 302 ∧
    (.redirect "/notes" 302 : UiResponse) = .redirect "/notes" 302 :=
  c8_form_success_redirects ⟨[⟨1, "x", "y", 0, none⟩], 2, 5, ⟨3⟩⟩
    ⟨some "a", some "b", none⟩ 1
    (.redirect "/notes" 302) (.redirect "/notes" 302) (.redirect "/notes" 302)
    ⟨[⟨1, "x", "y", 0, none⟩, ⟨2, "a", "b", 5, some ⟨3⟩⟩], 3, 5, ⟨3⟩⟩
    ⟨[⟨1, "a", "b", 0, none⟩], 2, 5, ⟨3⟩⟩
    ⟨[], 2, 5, ⟨3⟩⟩
    rfl rfl rfl

/-- C9: for every note id absent from storage, the form/UI delete and
update endpoints propagate the underlying 404 not-found error and do not
issue the redirect to "/notes". -/
theorem c9_form_not_found_propagates (note_id : Nat) (s : NotesSession)
    (p : RawPayload) (t d : String)
    (habs : ∀ n ∈ s.notes, n.id ≠ note_id)
    (ht : p.title = some t) (hd : p.description = some d) :
    redirect_delete_note note_id s =
      .error ⟨404, "Note with id " ++ toString note_id ++ " not found"⟩ ∧
    redirect_update_note p note_id s =
      .error ⟨404, "Note with id " ++ toString note_id ++ " not found"⟩ := by
  have hview : InternalNotes.view s note_id = none :=
    List.find?_eq_none.mpr (fun n hn => by simp [habs n hn])
  constructor
  · simp [redirect_delete_note, delete_note, InternalNotes.delete, hview]
  · simp [redirect_update_note, NoteSchema.validate, ht, hd,
      InternalNotes.update, hview]

/-- Witness for C9: id 999 against a store holding only note 1. -/
theorem c9_witness :
    redirect_delete_note 999 ⟨[⟨1, "x", "y", 0, none⟩], 2, 5, ⟨3⟩⟩ =
      .error ⟨404, "Note with id " ++ toString 999 ++ " not found"⟩ ∧
    redirect_update_note ⟨some "a", some "b", none⟩ 999
        ⟨[⟨1, "x", "y", 0, none⟩], 2, 5, ⟨3⟩⟩ =
      .error ⟨404, "Note with id " ++ toString 999 ++ " not found"⟩ :=
  c9_form_not_found_propagates 999 ⟨[⟨1, "x", "y", 0, none⟩], 2, 5, ⟨3⟩⟩
    ⟨some "a", some "b", none⟩ "a" "b" (by decide) rfl rfl

end Calendar
